import Mathlib

/-!
Verification of the agentic-RAG control loop of this repository
(`agentic_rag.py`): the tool dispatcher `execute_tool`, the critic
evaluator `critic_evaluate`, and the orchestrator `agentic_rag`,
together with the context formatter `format_context` from
`vector_store.py`.

Modelling conventions:
* Python strings are modelled as `List Char` (`Str`).
* The external collaborators (the Azure chat gateway, the critic's
  chat completion, and the vector retriever) are modelled as oracles
  supplied in an `Env` record: gateway responses and critic responses
  are streams indexed by call order, and the retriever is a function
  from the (query, top_k) arguments to a list of passages.
* Python's `json.loads` is modelled by the executable parser
  `jsonLoads` below (objects keep `dict` semantics: a duplicate key
  overwrites the earlier value; non-integer numeric literals are kept
  as their lexeme in the `Json.fnum` constructor).
* Raising an exception is modelled by `Except.error` carrying the
  Python exception class (`PyExc`).
-/

namespace ARag

/-- Python strings are modelled as lists of characters. -/
abbrev Str := List Char

/-- Whitespace stripped by Python's `str.strip()` (ASCII part). -/
def isPySpace (c : Char) : Bool :=
  c == ' ' || c == '\t' || c == '\n' || c == '\r' || c == '\x0b' || c == '\x0c'

/-- Python `s.strip()`: drop leading and trailing whitespace. -/
def pyStrip (s : Str) : Str :=
  ((s.dropWhile isPySpace).reverse.dropWhile isPySpace).reverse

/-- JSON values as produced by `json.loads`.  Integer literals are
`num`; non-integer numeric literals (floats, exponents, `NaN`,
`Infinity`) are kept as their lexeme in `fnum`. -/
inductive Json where
  | null : Json
  | bool (b : Bool) : Json
  | num (n : Int) : Json
  | fnum (lexeme : Str) : Json
  | str (s : Str) : Json
  | arr (elems : List Json) : Json
  | obj (members : List (Str × Json)) : Json

/-- First-match lookup in an association list (Python `dict` lookup,
given that `insertKV` below keeps keys unique). -/
def jLookup (kvs : List (Str × Json)) (k : Str) : Option Json :=
  match kvs with
  | [] => none
  | (k', v) :: rest => if k' = k then some v else jLookup rest k

/-- Insert with `dict` semantics: a duplicate key overwrites the
earlier value, keeping the first-insertion position. -/
def insertKV (kvs : List (Str × Json)) (k : Str) (v : Json) : List (Str × Json) :=
  match kvs with
  | [] => [(k, v)]
  | (k', v') :: rest => if k' = k then (k', v) :: rest else (k', v') :: insertKV rest k v

/-- JSON whitespace accepted between tokens by `json.loads`. -/
def isJsonWs (c : Char) : Bool :=
  c == ' ' || c == '\t' || c == '\n' || c == '\r'

/-- Skip JSON whitespace. -/
def skipWs (s : Str) : Str := s.dropWhile isJsonWs

/-- Value of a hexadecimal digit, if any. -/
def hexVal (c : Char) : Option Nat :=
  if '0' ≤ c ∧ c ≤ '9' then some (c.toNat - 48)
  else if 'a' ≤ c ∧ c ≤ 'f' then some (c.toNat - 87)
  else if 'A' ≤ c ∧ c ≤ 'F' then some (c.toNat - 55)
  else none

/-- Single-character JSON string escapes. -/
def escChar : Char → Option Char
  | '"' => some '"'
  | '\\' => some '\\'
  | '/' => some '/'
  | 'b' => some (Char.ofNat 8)
  | 'f' => some (Char.ofNat 12)
  | 'n' => some '\n'
  | 'r' => some '\r'
  | 't' => some '\t'
  | _ => none

/-- Parse the body of a JSON string after the opening quote, returning
the decoded characters and the remaining input.  Surrogate pairs in
`\uXXXX` escapes are combined; a lone surrogate (not representable as
a `Char`) degrades to `Char.ofNat`'s fallback.  Raw control characters
are rejected, as in Python's strict mode.  Fuelled recursion; the fuel
passed by `jsonLoads` always suffices. -/
def parseStringBody : Nat → Str → Option (Str × Str)
  | 0, _ => none
  | _ + 1, [] => none
  | fuel + 1, c :: rest =>
    if c == '"' then some ([], rest)
    else if c == '\\' then
      match rest with
      | [] => none
      | e :: rest2 =>
        if e == 'u' then
          match rest2 with
          | a :: b :: c2 :: d :: rest3 =>
            match hexVal a, hexVal b, hexVal c2, hexVal d with
            | some ha, some hb, some hc, some hd =>
              let n := ((ha * 16 + hb) * 16 + hc) * 16 + hd
              if 0xD800 ≤ n ∧ n ≤ 0xDBFF then
                match rest3 with
                | '\\' :: 'u' :: a2 :: b2 :: c3 :: d2 :: rest4 =>
                  match hexVal a2, hexVal b2, hexVal c3, hexVal d2 with
                  | some h1, some h2, some h3, some h4 =>
                    let m := ((h1 * 16 + h2) * 16 + h3) * 16 + h4
                    if 0xDC00 ≤ m ∧ m ≤ 0xDFFF then
                      match parseStringBody fuel rest4 with
                      | some (tail, rem) =>
                        some (Char.ofNat (0x10000 + (n - 0xD800) * 0x400 + (m - 0xDC00)) :: tail, rem)
                      | none => none
                    else
                      match parseStringBody fuel rest3 with
                      | some (tail, rem) => some (Char.ofNat n :: tail, rem)
                      | none => none
                  | _, _, _, _ =>
                    match parseStringBody fuel rest3 with
                    | some (tail, rem) => some (Char.ofNat n :: tail, rem)
                    | none => none
                | _ =>
                  match parseStringBody fuel rest3 with
                  | some (tail, rem) => some (Char.ofNat n :: tail, rem)
                  | none => none
              else
                match parseStringBody fuel rest3 with
                | some (tail, rem) => some (Char.ofNat n :: tail, rem)
                | none => none
            | _, _, _, _ => none
          | _ => none
        else
          match escChar e with
          | some ch =>
            match parseStringBody fuel rest2 with
            | some (tail, rem) => some (ch :: tail, rem)
            | none => none
          | none => none
    else if c.toNat < 32 then none
    else
      match parseStringBody fuel rest with
      | some (tail, rem) => some (c :: tail, rem)
      | none => none

/-- Numeric value of a digit string. -/
def digitsToNat (ds : Str) : Nat :=
  ds.foldl (fun acc c => acc * 10 + (c.toNat - 48)) 0

/-- Parse an optional fraction part, returning its lexeme. -/
def parseFrac (s : Str) : Option (Str × Str) :=
  match s with
  | '.' :: r =>
    let fd := r.takeWhile Char.isDigit
    if fd = [] then none else some ('.' :: fd, r.dropWhile Char.isDigit)
  | _ => some ([], s)

/-- Parse an optional exponent part, returning its lexeme. -/
def parseExp (s : Str) : Option (Str × Str) :=
  match s with
  | c :: r =>
    if c == 'e' || c == 'E' then
      let p := match r with
        | '+' :: t => (['+'], t)
        | '-' :: t => (['-'], t)
        | _ => (([] : Str), r)
      let ed := p.2.takeWhile Char.isDigit
      if ed = [] then none else some (c :: p.1 ++ ed, p.2.dropWhile Char.isDigit)
    else some ([], c :: r)
  | [] => some ([], [])

/-- Parse a JSON number (including Python's accepted `-Infinity`).
Integer literals become `Json.num`; anything with a fraction or
exponent keeps its lexeme as `Json.fnum`. -/
def parseNumber (s : Str) : Option (Json × Str) :=
  let p := match s with
    | '-' :: r => (true, r)
    | _ => (false, s)
  if p.1 ∧ ("Infinity".data).isPrefixOf p.2 then
    some (Json.fnum ('-' :: ("Infinity".data)), p.2.drop 8)
  else
    let ip := p.2.takeWhile Char.isDigit
    let s2 := p.2.dropWhile Char.isDigit
    if ip = [] then none
    else if 1 < ip.length ∧ ip.head? = some '0' then none
    else
      match parseFrac s2 with
      | none => none
      | some (fp, s3) =>
        match parseExp s3 with
        | none => none
        | some (ep, s4) =>
          if fp = [] ∧ ep = [] then
            let n : Int := Int.ofNat (digitsToNat ip)
            some (Json.num (if p.1 then -n else n), s4)
          else
            some (Json.fnum ((if p.1 then ['-'] else []) ++ ip ++ fp ++ ep), s4)

mutual

/-- Parse one JSON value (fuelled recursive descent mirroring
`json.loads`, including its `NaN`/`Infinity` extensions). -/
def parseValue : Nat → Str → Option (Json × Str)
  | 0, _ => none
  | fuel + 1, s0 =>
    match skipWs s0 with
    | [] => none
    | c :: rest =>
      if c == '\x7b' then
        match skipWs rest with
        | c2 :: rest2 =>
          if c2 == '\x7d' then some (Json.obj [], rest2)
          else parseMembers fuel (c2 :: rest2) []
        | [] => none
      else if c == '[' then
        match skipWs rest with
        | c2 :: rest2 =>
          if c2 == ']' then some (Json.arr [], rest2)
          else parseElements fuel (c2 :: rest2) []
        | [] => none
      else if c == '"' then
        match parseStringBody (fuel + 1) rest with
        | some (str, rem) => some (Json.str str, rem)
        | none => none
      else if c == 't' then
        match rest with
        | 'r' :: 'u' :: 'e' :: rem => some (Json.bool true, rem)
        | _ => none
      else if c == 'f' then
        match rest with
        | 'a' :: 'l' :: 's' :: 'e' :: rem => some (Json.bool false, rem)
        | _ => none
      else if c == 'n' then
        match rest with
        | 'u' :: 'l' :: 'l' :: rem => some (Json.null, rem)
        | _ => none
      else if c == 'N' then
        match rest with
        | 'a' :: 'N' :: rem => some (Json.fnum ("NaN".data), rem)
        | _ => none
      else if c == 'I' then
        match rest with
        | 'n' :: 'f' :: 'i' :: 'n' :: 'i' :: 't' :: 'y' :: rem =>
          some (Json.fnum ("Infinity".data), rem)
        | _ => none
      else if c == '-' || c.isDigit then parseNumber (c :: rest)
      else none

/-- Parse the members of a JSON object after its first non-`}` token,
accumulating with `dict` (last-wins) insertion. -/
def parseMembers : Nat → Str → List (Str × Json) → Option (Json × Str)
  | 0, _, _ => none
  | fuel + 1, s, acc =>
    match skipWs s with
    | c :: rest =>
      if c == '"' then
        match parseStringBody (fuel + 1) rest with
        | some (key, rem) =>
          match skipWs rem with
          | ':' :: rem2 =>
            match parseValue fuel rem2 with
            | some (v, rem3) =>
              match skipWs rem3 with
              | ',' :: rem4 => parseMembers fuel rem4 (insertKV acc key v)
              | c2 :: rem4 =>
                if c2 == '\x7d' then some (Json.obj (insertKV acc key v), rem4) else none
              | [] => none
            | none => none
          | _ => none
        | none => none
      else none
    | [] => none

/-- Parse the elements of a JSON array after its first non-`]` token. -/
def parseElements : Nat → Str → List Json → Option (Json × Str)
  | 0, _, _ => none
  | fuel + 1, s, acc =>
    match parseValue fuel s with
    | some (v, rem) =>
      match skipWs rem with
      | ',' :: rem2 => parseElements fuel rem2 (acc ++ [v])
      | c :: rem2 => if c == ']' then some (Json.arr (acc ++ [v]), rem2) else none
      | [] => none
    | none => none

end

/-- Model of Python's `json.loads`: `none` models a raised
`json.JSONDecodeError`. -/
def jsonLoads (s : Str) : Option Json :=
  match parseValue (s.length + 1) s with
  | some (v, rem) => if skipWs rem = [] then some v else none
  | none => none

/-- Python exception classes that the embedded code can raise. -/
inductive PyExc where
  | jsonDecodeError : PyExc
  | attributeError : PyExc
  | typeError : PyExc
  deriving DecidableEq

/-- Zero test for a float lexeme kept by `Json.fnum` (Python float
truthiness: `0.0` in any spelling is falsy; `NaN` and `Infinity` are
truthy). -/
def fnumIsZero (lex : Str) : Bool :=
  let l := match lex with
    | '-' :: r => r
    | _ => lex
  if l = ("NaN".data) ∨ l = ("Infinity".data) then false
  else (l.takeWhile (fun c => !(c == 'e' || c == 'E'))).all (fun c => c == '0' || c == '.')

/-- Python truthiness of a value produced by `json.loads`. -/
def pyTruthy (j : Json) : Bool :=
  match j with
  | Json.null => false
  | Json.bool b => b
  | Json.num n => !(n = 0)
  | Json.fnum lex => !(fnumIsZero lex)
  | Json.str s => !(s = [])
  | Json.arr [] => false
  | Json.arr (_ :: _) => true
  | Json.obj [] => false
  | Json.obj (_ :: _) => true

/-- Truthiness of Python's `d.get(k)` result (`None` when absent). -/
def pyTruthyOpt (o : Option Json) : Bool :=
  match o with
  | none => false
  | some v => pyTruthy v

/-- Python `x == "lit"` for a `json.loads` value: true exactly when
`x` is the string `s`. -/
def isStrEq (j : Json) (s : Str) : Bool :=
  match j with
  | Json.str t => t = s
  | _ => false

/-- Whether the value is a JSON object (Python `dict`). -/
def jsonIsObj (j : Json) : Bool :=
  match j with
  | Json.obj _ => true
  | _ => false

/-- Whether Python slicing `x[:100]` succeeds on the value: it does for
strings and lists, and raises `TypeError` otherwise. -/
def sliceable (j : Json) : Bool :=
  match j with
  | Json.str _ => true
  | Json.arr _ => true
  | _ => false

mutual

/-- Approximation of Python `repr` for a `json.loads` value (used only
to build conversation-message text, which no claim observes; string
escaping inside `repr` is not modelled). -/
def pyReprJson : Json → Str
  | Json.null => ("None".data)
  | Json.bool true => ("True".data)
  | Json.bool false => ("False".data)
  | Json.num n => (toString n).data
  | Json.fnum lex => lex
  | Json.str s => '\'' :: (s ++ ['\''])
  | Json.arr l => '[' :: (pyReprList l ++ [']'])
  | Json.obj kvs => Char.ofNat 123 :: (pyReprMembers kvs ++ [Char.ofNat 125])

/-- Comma-separated `repr` of list elements. -/
def pyReprList : List Json → Str
  | [] => []
  | [j] => pyReprJson j
  | j :: rest => pyReprJson j ++ (", ".data) ++ pyReprList rest

/-- Comma-separated `repr` of object members. -/
def pyReprMembers : List (Str × Json) → Str
  | [] => []
  | [(k, v)] => '\'' :: (k ++ ("': ".data) ++ pyReprJson v)
  | (k, v) :: rest =>
    '\'' :: (k ++ ("': ".data) ++ pyReprJson v ++ (", ".data) ++ pyReprMembers rest)

end

/-- Python `str(x)` as used by f-string interpolation: a string
interpolates verbatim, anything else via `repr`. -/
def pyStrJson (j : Json) : Str :=
  match j with
  | Json.str s => s
  | _ => pyReprJson j

/-!  ## `vector_store.format_context` and the tool dispatcher  -/

/-- A retrieved passage as consumed by `format_context`
(`vector_store.retrieve` builds `citation = "[filename, Page N]"`). -/
structure Passage where
  citation : Str
  text : Str
  deriving DecidableEq

/-- The numbered context blocks built by `format_context`'s loop
(`enumerate(results, 1)`). -/
def contextBlocks (i : Nat) : List Passage → List Str
  | [] => []
  | r :: rest =>
    (("[Source ".data) ++ (toString i).data ++ ("] ".data) ++ r.citation
      ++ ['\n'] ++ r.text ++ ['\n']) :: contextBlocks (i + 1) rest

/-- Python `sep.join(parts)`. -/
def strJoin (sep : Str) : List Str → Str
  | [] => []
  | [x] => x
  | x :: rest => x ++ sep ++ strJoin sep rest

/-- `vector_store.format_context`: render retrieved passages into one
context string, or the fixed sentinel when there are none. -/
def format_context (results : List Passage) : Str :=
  if results = [] then ("No relevant information found.".data)
  else strJoin ("\n---\n".data) (contextBlocks 1 results)

/-- `agentic_rag.execute_tool`: dispatch one tool call.  The retriever
(`vector_store.retrieve` behind `get_index`) is an external
collaborator, passed as the oracle `retrieveFn` taking the `query` and
`top_k` argument values.  A non-`dict` argument value models Python's
`AttributeError` on `arguments.get`. -/
def execute_tool (retrieveFn : Json → Json → List Passage)
    (tool_name : Str) (arguments : Json) : Except PyExc Str :=
  if tool_name = ("search_nist_knowledge".data) then
    match arguments with
    | Json.obj kvs =>
      let query := (jLookup kvs ("query".data)).getD (Json.str [])
      let top_k := (jLookup kvs ("top_k".data)).getD (Json.num 5)
      .ok (format_context (retrieveFn query top_k))
    | _ => .error PyExc.attributeError
  else
    .ok (("Unknown tool: ".data) ++ tool_name)

/-!  ## The critic evaluator  -/

/-- The judgment prompt `critic_evaluate` sends to the gateway. -/
def criticPrompt (query context : Str) : Str :=
  ("User Query: ".data) ++ query ++ ("\n\nRetrieved Context:\n".data) ++ context
    ++ ("\n\nEvaluate if this context sufficiently answers the query. Respond with JSON only.".data)

/-- The response-cleaning step of `critic_evaluate` (lines 96-107):
strip whitespace, strip a leading triple-backtick fence with or
without a `json` tag, strip a trailing triple-backtick fence, strip
whitespace again. -/
def cleanResponse (response : Str) : Str :=
  let c1 := pyStrip response
  let c2 :=
    if ("```json".data).isPrefixOf c1 then c1.drop 7
    else if ("```".data).isPrefixOf c1 then c1.drop 3
    else c1
  let c3 :=
    if ("```".data).isSuffixOf c2 then c2.take (c2.length - 3)
    else c2
  pyStrip c3

/-- The synthetic verdict returned when the critic's response is not
well-formed JSON (line 117). -/
def parseFallbackVerdict : Json :=
  Json.obj
    [ (("decision".data), Json.str ("sufficient".data)),
      (("reasoning".data), Json.str ("Parse error fallback".data)),
      (("refined_query".data), Json.null) ]

/-- Parsing and logging of the cleaned critic response (lines 110-117).
On a decode error the fallback verdict is returned.  On success the
logging f-string evaluates `result.get('decision')` — an
`AttributeError` when the parsed value is not a `dict` — and then
`result.get('reasoning', '')[:100]` — a `TypeError` when that value is
not sliceable. -/
def criticParse (cleaned : Str) : Except PyExc Json :=
  match jsonLoads cleaned with
  | none => .ok parseFallbackVerdict
  | some result =>
    match result with
    | Json.obj kvs =>
      if sliceable ((jLookup kvs ("reasoning".data)).getD (Json.str [])) then
        .ok (Json.obj kvs)
      else .error PyExc.typeError
    | _ => .error PyExc.attributeError

/-- `agentic_rag.critic_evaluate` applied to the raw gateway response
(the `azure_chat` network call itself is the oracle; this function is
the deterministic part after the response arrives). -/
def critic_evaluate (response : Str) : Except PyExc Json :=
  criticParse (cleanResponse response)

/-!  ## The orchestrator  -/

/-- The `content` field of a gateway message: missing key, JSON null,
or a string (Python's `d.get(k, default)` distinguishes the first two). -/
inductive ContentVal where
  | missing : ContentVal
  | null : ContentVal
  | str (s : Str) : ContentVal
  deriving DecidableEq

/-- `response.get("content", dflt)`: the default only when the key is
missing; an explicit `null` yields Python `None`. -/
def pyGetContent (c : ContentVal) (dflt : Str) : Option Str :=
  match c with
  | ContentVal.missing => some dflt
  | ContentVal.null => none
  | ContentVal.str s => some s

/-- One tool invocation as returned by the gateway
(`tool_call["id"]`, `tool_call["function"]["name"]`,
`tool_call["function"]["arguments"]` — the last still serialized). -/
structure ToolCall where
  id : Str
  name : Str
  arguments : Str
  deriving DecidableEq

/-- One tool-augmented gateway response.  `tool_calls` is the value of
`response.get("tool_calls", [])`; a missing or `null` field behaves
exactly like `[]` (both are falsy and never iterated), so both are
represented by `[]`. -/
structure GatewayResponse where
  content : ContentVal
  tool_calls : List ToolCall
  deriving DecidableEq

/-- Conversation messages appended by the loop. -/
inductive Message where
  | user (content : Str) : Message
  | assistantToolCall (tc : ToolCall) : Message
  | tool (tool_call_id : Str) (content : Str) : Message
  deriving DecidableEq

/-- The external collaborators: gateway responses and critic responses
as streams indexed by call order, and the retriever as a function of
the dispatched arguments. -/
structure Env where
  gateway : Nat → GatewayResponse
  critic : Nat → Str
  retrieveFn : Json → Json → List Passage

/-- Loop-carried state: the conversation, the current context, the
number of gateway calls made, and the trace of contexts passed to the
critic (its length is the number of critic calls). -/
structure LoopState where
  messages : List Message
  context : Option Str
  g : Nat
  ctrace : List Str

/-- Result of one `while`-body execution. -/
inductive IterStep where
  | ret (r : Except PyExc (Option Str)) (s : LoopState) : IterStep
  | brk (s : LoopState) : IterStep
  | cont (s : LoopState) : IterStep

/-- The state carried by an `IterStep`. -/
def stepState (it : IterStep) : LoopState :=
  match it with
  | IterStep.ret _ s => s
  | IterStep.brk s => s
  | IterStep.cont s => s

/-- The `for tool_call in tool_calls` body (lines 152-172): parse the
serialized arguments (raising `JSONDecodeError` on malformed JSON),
dispatch, append the assistant and tool messages, and overwrite
`context` with the latest tool result. -/
def processToolCalls (retrieveFn : Json → Json → List Passage) :
    List ToolCall → List Message → Option Str → Except PyExc (List Message × Option Str)
  | [], messages, context => .ok (messages, context)
  | tc :: rest, messages, context =>
    match jsonLoads tc.arguments with
    | none => .error PyExc.jsonDecodeError
    | some args =>
      match execute_tool retrieveFn tc.name args with
      | .error e => .error e
      | .ok tool_result =>
        processToolCalls retrieveFn rest
          (messages ++ [Message.assistantToolCall tc, Message.tool tc.id tool_result])
          (some tool_result)

/-- The refinement user message (line 190). -/
def refineMsgOf (refined : Json) : Str :=
  ("The previous search wasn't quite right. Please search again with this refined query: ".data)
    ++ pyStrJson refined

/-- The broaden-search user message (line 197). -/
def broadenMsg : Str :=
  ("The retrieved information wasn't sufficient. Please try a broader or different search.".data)

/-- One iteration of the `while` loop (lines 140-202). -/
def loopIter (env : Env) (user_query : Str) (s : LoopState) : IterStep :=
  let response := env.gateway s.g
  let s1 : LoopState := { s with g := s.g + 1 }
  if response.tool_calls = [] then
    IterStep.ret (.ok (pyGetContent response.content ("I couldn't find relevant information.".data))) s1
  else
    match processToolCalls env.retrieveFn response.tool_calls s1.messages s1.context with
    | .error e => IterStep.ret (.error e) s1
    | .ok (msgs', ctx') =>
      let s2 : LoopState := { s1 with messages := msgs', context := ctx' }
      match ctx' with
      | none => IterStep.cont s2
      | some ctx =>
        if ctx = [] then IterStep.cont s2
        else
          let s3 : LoopState := { s2 with ctrace := s2.ctrace ++ [ctx] }
          match critic_evaluate (env.critic s.ctrace.length) with
          | .error e => IterStep.ret (.error e) s3
          | .ok verdict =>
            match verdict with
            | Json.obj kvs =>
              let decision := (jLookup kvs ("decision".data)).getD (Json.str ("sufficient".data))
              if isStrEq decision ("sufficient".data) then IterStep.brk s3
              else if isStrEq decision ("needs_refinement".data)
                  && pyTruthyOpt (jLookup kvs ("refined_query".data)) then
                IterStep.cont { s3 with messages := s3.messages
                  ++ [Message.user (refineMsgOf ((jLookup kvs ("refined_query".data)).getD Json.null))] }
              else
                IterStep.cont { s3 with messages := s3.messages ++ [Message.user broadenMsg] }
            | _ => IterStep.ret (.error PyExc.attributeError) s3

/-- The final synthesis prompt (lines 205-212), with Python truthiness
on `context`. -/
def synthesisPrompt (user_query : Str) (context : Option Str) : Str :=
  ("Based on the retrieved information, provide a comprehensive answer to the user's question.\n    \nUser Question: ".data)
    ++ user_query ++ ("\n\nRetrieved Context:\n".data)
    ++ (match context with
        | some c => if c = [] then ("No context retrieved.".data) else c
        | none => ("No context retrieved.".data))
    ++ ("\n\nProvide a detailed answer with proper citations.".data)

/-- The observable outcome of one orchestrator invocation: its return
value (or raised exception), the number of gateway calls, the trace of
contexts passed to the critic, and the final value of `context`. -/
structure RunOutcome where
  result : Except PyExc (Option Str)
  gcalls : Nat
  ctrace : List Str
  context : Option Str

/-- The final synthesis call (lines 205-219): one more gateway call;
its `content` (defaulted when the key is missing) is the result. -/
def finalSynthesis (env : Env) (user_query : Str) (s : LoopState) : RunOutcome :=
  let _final_prompt := synthesisPrompt user_query s.context
  let final_response := env.gateway s.g
  { result := .ok (pyGetContent final_response.content ("Unable to generate response.".data)),
    gcalls := s.g + 1, ctrace := s.ctrace, context := s.context }

/-- The `while iteration < max_iterations` loop, with the remaining
iteration budget as fuel. -/
def agentic_loop (env : Env) (user_query : Str) : Nat → LoopState → RunOutcome
  | 0, s => finalSynthesis env user_query s
  | fuel + 1, s =>
    match loopIter env user_query s with
    | IterStep.ret r s' =>
      { result := r, gcalls := s'.g, ctrace := s'.ctrace, context := s'.context }
    | IterStep.brk s' => finalSynthesis env user_query s'
    | IterStep.cont s' => agentic_loop env user_query fuel s'

/-- `agentic_rag.agentic_rag`: the whole orchestrator run. -/
def agentic_rag (env : Env) (user_query : Str) (max_iterations : Nat := 3) : RunOutcome :=
  agentic_loop env user_query max_iterations
    { messages := [Message.user user_query], context := none, g := 0, ctrace := [] }

/-!  ## Environment predicates used by the loop theorems  -/

/-- The `i`-th gateway response requests at least one tool call and
every requested call carries a well-formed JSON object as arguments. -/
def toolRoundOk (env : Env) (i : Nat) : Prop :=
  (env.gateway i).tool_calls ≠ [] ∧
    ∀ tc ∈ (env.gateway i).tool_calls, ∃ kvs, jsonLoads tc.arguments = some (Json.obj kvs)

/-- The `j`-th critic response yields a verdict whose effective
decision (with the `"sufficient"` default of line 177) is not
`"sufficient"`, so the loop keeps going. -/
def criticContinueAt (env : Env) (j : Nat) : Prop :=
  ∃ kvs, critic_evaluate (env.critic j) = .ok (Json.obj kvs) ∧
    isStrEq ((jLookup kvs ("decision".data)).getD (Json.str ("sufficient".data)))
      ("sufficient".data) = false

/-- The `j`-th critic response yields a verdict whose effective
decision is `"sufficient"`. -/
def criticSufficientAt (env : Env) (j : Nat) : Prop :=
  ∃ kvs, critic_evaluate (env.critic j) = .ok (Json.obj kvs) ∧
    isStrEq ((jLookup kvs ("decision".data)).getD (Json.str ("sufficient".data)))
      ("sufficient".data) = true

/-!  ## Helper lemmas  -/

/-- A joined list of blocks is nonempty when its first block is. -/
theorem strJoin_ne_nil (sep : Str) (b : Str) (bs : List Str) (hb : b ≠ []) :
    strJoin sep (b :: bs) ≠ [] := by
  cases bs with
  | nil => simpa [strJoin] using hb
  | cons x xs =>
    simp only [strJoin]
    intro h
    rcases List.append_eq_nil.mp h with ⟨h1, -⟩
    rcases List.append_eq_nil.mp h1 with ⟨h2, -⟩
    exact hb h2

/-- `format_context` never returns the empty string. -/
theorem format_context_ne_nil (results : List Passage) : format_context results ≠ [] := by
  cases results with
  | nil => simp [format_context]
  | cons p rest =>
    simp only [format_context, if_neg (List.cons_ne_nil p rest), contextBlocks]
    exact strJoin_ne_nil _ _ _ (by simp)

/-- `execute_tool` with JSON-object arguments always returns a
nonempty string and never raises. -/
theorem execute_tool_ok (retrieveFn : Json → Json → List Passage)
    (name : Str) (kvs : List (Str × Json)) :
    ∃ res, execute_tool retrieveFn name (Json.obj kvs) = .ok res ∧ res ≠ [] := by
  by_cases h : name = ("search_nist_knowledge".data)
  · refine ⟨format_context (retrieveFn ((jLookup kvs ("query".data)).getD (Json.str []))
      ((jLookup kvs ("top_k".data)).getD (Json.num 5))), ?_, format_context_ne_nil _⟩
    simp [execute_tool, h]
  · refine ⟨("Unknown tool: ".data) ++ name, ?_, by simp⟩
    simp [execute_tool, h]

/-- When every tool call carries well-formed JSON-object arguments,
the `for` loop succeeds and leaves as context the nonempty result of
the last executed call. -/
theorem processToolCalls_ok (retrieveFn : Json → Json → List Passage) :
    ∀ (tcs : List ToolCall) (msgs : List Message) (ctx : Option Str),
      (∀ tc ∈ tcs, ∃ kvs, jsonLoads tc.arguments = some (Json.obj kvs)) →
      tcs ≠ [] →
      ∃ msgs' res, processToolCalls retrieveFn tcs msgs ctx = .ok (msgs', some res) ∧ res ≠ [] := by
  intro tcs
  induction tcs with
  | nil => intro msgs ctx _ hne; exact absurd rfl hne
  | cons tc rest ih =>
    intro msgs ctx hgood _
    obtain ⟨kvs, hjson⟩ := hgood tc (by simp)
    obtain ⟨res0, hexec, hres0⟩ := execute_tool_ok retrieveFn tc.name kvs
    by_cases hrest : rest = []
    · subst hrest
      refine ⟨msgs ++ [Message.assistantToolCall tc, Message.tool tc.id res0], res0, ?_, hres0⟩
      simp [processToolCalls, hjson, hexec]
    · obtain ⟨msgs', res, hp, hres⟩ :=
        ih (msgs ++ [Message.assistantToolCall tc, Message.tool tc.id res0]) (some res0)
          (fun tc' htc' => hgood tc' (by simp [htc'])) hrest
      exact ⟨msgs', res, by simp [processToolCalls, hjson, hexec, hp], hres⟩

/-- With well-formed arguments throughout, the context after the `for`
loop is exactly the result of dispatching the last tool call — the
latest result overwrites all earlier ones and the incoming context. -/
theorem processToolCalls_last (retrieveFn : Json → Json → List Passage) :
    ∀ (pre : List ToolCall) (tc : ToolCall) (msgs : List Message) (ctx : Option Str),
      (∀ tc' ∈ pre ++ [tc], ∃ kvs, jsonLoads tc'.arguments = some (Json.obj kvs)) →
      ∃ args res msgs', jsonLoads tc.arguments = some args ∧
        execute_tool retrieveFn tc.name args = .ok res ∧
        processToolCalls retrieveFn (pre ++ [tc]) msgs ctx = .ok (msgs', some res) := by
  intro pre
  induction pre with
  | nil =>
    intro tc msgs ctx hgood
    obtain ⟨kvs, hjson⟩ := hgood tc (by simp)
    obtain ⟨res0, hexec, -⟩ := execute_tool_ok retrieveFn tc.name kvs
    refine ⟨Json.obj kvs, res0,
      msgs ++ [Message.assistantToolCall tc, Message.tool tc.id res0], hjson, hexec, ?_⟩
    simp [processToolCalls, hjson, hexec]
  | cons p pre ih =>
    intro tc msgs ctx hgood
    obtain ⟨kvs, hjson⟩ := hgood p (by simp)
    obtain ⟨res0, hexec, -⟩ := execute_tool_ok retrieveFn p.name kvs
    obtain ⟨args, res, msgs', h1, h2, h3⟩ :=
      ih tc (msgs ++ [Message.assistantToolCall p, Message.tool p.id res0]) (some res0)
        (fun tc' htc' => hgood tc' (by simp at htc' ⊢; tauto))
    exact ⟨args, res, msgs', h1, h2, by simp [processToolCalls, hjson, hexec, h3]⟩

/-- A tool call with malformed serialized arguments aborts the `for`
loop with a `JSONDecodeError`, however many well-formed calls precede
it. -/
theorem processToolCalls_err (retrieveFn : Json → Json → List Passage) :
    ∀ (pre : List ToolCall) (tc : ToolCall) (post : List ToolCall)
      (msgs : List Message) (ctx : Option Str),
      (∀ tc' ∈ pre, ∃ kvs, jsonLoads tc'.arguments = some (Json.obj kvs)) →
      jsonLoads tc.arguments = none →
      processToolCalls retrieveFn (pre ++ tc :: post) msgs ctx = .error PyExc.jsonDecodeError := by
  intro pre
  induction pre with
  | nil =>
    intro tc post msgs ctx _ hbad
    simp [processToolCalls, hbad]
  | cons p pre ih =>
    intro tc post msgs ctx hgood hbad
    obtain ⟨kvs, hjson⟩ := hgood p (by simp)
    obtain ⟨res0, hexec, -⟩ := execute_tool_ok retrieveFn p.name kvs
    simp [processToolCalls, hjson, hexec,
      ih tc post _ _ (fun tc' htc' => hgood tc' (by simp [htc'])) hbad]

/-- A tool round whose critic verdict does not have effective decision
`"sufficient"` continues the loop, advancing the gateway-call count
and the critic trace by one each. -/
theorem iter_cont (env : Env) (q : Str) (s : LoopState)
    (h1 : toolRoundOk env s.g) (h2 : criticContinueAt env s.ctrace.length) :
    ∃ s', loopIter env q s = IterStep.cont s' ∧
      s'.g = s.g + 1 ∧ s'.ctrace.length = s.ctrace.length + 1 := by
  obtain ⟨hne, hargs⟩ := h1
  obtain ⟨msgs', res, hp, hres⟩ :=
    processToolCalls_ok env.retrieveFn (env.gateway s.g).tool_calls s.messages s.context hargs hne
  obtain ⟨kvs, hcrit, hdec⟩ := h2
  simp only [loopIter, if_neg hne, hp, hcrit, if_neg hres, hdec]
  by_cases hb : (isStrEq ((jLookup kvs ("decision".data)).getD (Json.str ("sufficient".data)))
      ("needs_refinement".data) && pyTruthyOpt (jLookup kvs ("refined_query".data))) = true
  · simp only [hb, if_true, Bool.false_eq_true, if_false]
    exact ⟨_, rfl, by simp, by simp⟩
  · simp only [Bool.false_eq_true, if_false, hb]
    exact ⟨_, rfl, by simp, by simp⟩

/-- A tool round whose critic verdict has effective decision
`"sufficient"` breaks out of the loop. -/
theorem iter_brk (env : Env) (q : Str) (s : LoopState)
    (h1 : toolRoundOk env s.g) (h2 : criticSufficientAt env s.ctrace.length) :
    ∃ s', loopIter env q s = IterStep.brk s' ∧
      s'.g = s.g + 1 ∧ s'.ctrace.length = s.ctrace.length + 1 := by
  obtain ⟨hne, hargs⟩ := h1
  obtain ⟨msgs', res, hp, hres⟩ :=
    processToolCalls_ok env.retrieveFn (env.gateway s.g).tool_calls s.messages s.context hargs hne
  obtain ⟨kvs, hcrit, hdec⟩ := h2
  simp only [loopIter, if_neg hne, hp, hcrit, if_neg hres, hdec, if_true]
  exact ⟨_, rfl, by simp, by simp⟩

/-- Running `n` continuing rounds unwinds the loop to a state whose
gateway-call count and critic-call count both advanced by `n`. -/
theorem loop_cont_n (env : Env) (q : Str) :
    ∀ (n fuel : Nat) (s : LoopState), n ≤ fuel →
      (∀ j, j < n → toolRoundOk env (s.g + j) ∧ criticContinueAt env (s.ctrace.length + j)) →
      ∃ s', agentic_loop env q fuel s = agentic_loop env q (fuel - n) s' ∧
        s'.g = s.g + n ∧ s'.ctrace.length = s.ctrace.length + n := by
  intro n
  induction n with
  | zero => intro fuel s _ _; exact ⟨s, by simp, by simp, by simp⟩
  | succ n ih =>
    intro fuel s hle hrounds
    obtain ⟨f, rfl⟩ : ∃ f, fuel = f + 1 := ⟨fuel - 1, by omega⟩
    have h0 := hrounds 0 (by omega)
    rw [Nat.add_zero, Nat.add_zero] at h0
    obtain ⟨s1, hstep, hg1, hc1⟩ := iter_cont env q s h0.1 h0.2
    have hshift : ∀ j, j < n →
        toolRoundOk env (s1.g + j) ∧ criticContinueAt env (s1.ctrace.length + j) := by
      intro j hj
      have h' := hrounds (j + 1) (by omega)
      constructor
      · have e : s1.g + j = s.g + (j + 1) := by omega
        rw [e]; exact h'.1
      · have e : s1.ctrace.length + j = s.ctrace.length + (j + 1) := by omega
        rw [e]; exact h'.2
    obtain ⟨s', hloop, hg, hc⟩ := ih f s1 (by omega) hshift
    refine ⟨s', ?_, by omega, by omega⟩
    have h1 : agentic_loop env q (f + 1) s = agentic_loop env q f s1 := by
      simp [agentic_loop, hstep]
    have h2 : f + 1 - (n + 1) = f - n := by omega
    rw [h1, hloop, h2]

/-- The initial loop state of `agentic_rag`. -/
def initState (user_query : Str) : LoopState :=
  { messages := [Message.user user_query], context := none, g := 0, ctrace := [] }

/-- When the first `n` rounds continue and round `n` (0-based) is a
tool round with a `"sufficient"` verdict, the run makes `n + 2`
gateway calls (rounds `0..n` plus the synthesis call), `n + 1` critic
calls, and returns the synthesis call's content. -/
theorem run_breaks (env : Env) (q : Str) (m n : Nat) (hlt : n < m)
    (hcont : ∀ j, j < n → toolRoundOk env j ∧ criticContinueAt env j)
    (hround : toolRoundOk env n) (hsuff : criticSufficientAt env n) :
    (agentic_rag env q m).gcalls = n + 2 ∧
    (agentic_rag env q m).ctrace.length = n + 1 ∧
    (agentic_rag env q m).result =
      .ok (pyGetContent (env.gateway (n + 1)).content ("Unable to generate response.".data)) := by
  obtain ⟨s', hloop, hg, hc⟩ := loop_cont_n env q n m (initState q) (le_of_lt hlt)
    (by simpa [initState] using hcont)
  simp [initState] at hg hc
  obtain ⟨s'', hstep, hg2, hc2⟩ := iter_brk env q s' (hg ▸ hround) (hc ▸ hsuff)
  obtain ⟨t, ht⟩ : ∃ t, m - n = t + 1 := ⟨m - n - 1, by omega⟩
  have hrun : agentic_rag env q m = finalSynthesis env q s'' := by
    show agentic_loop env q m (initState q) = _
    rw [hloop, ht]
    simp [agentic_loop, hstep]
  rw [hrun]
  refine ⟨by simp [finalSynthesis]; omega, by simp [finalSynthesis]; omega, ?_⟩
  have : s''.g = n + 1 := by omega
  simp [finalSynthesis, this]

/-- When all `m` rounds are continuing tool rounds, the loop exhausts
its budget: `m + 1` gateway calls, `m` critic calls, and the synthesis
call's content is returned. -/
theorem run_exhausts (env : Env) (q : Str) (m : Nat)
    (hcont : ∀ j, j < m → toolRoundOk env j ∧ criticContinueAt env j) :
    (agentic_rag env q m).gcalls = m + 1 ∧
    (agentic_rag env q m).ctrace.length = m ∧
    (agentic_rag env q m).result =
      .ok (pyGetContent (env.gateway m).content ("Unable to generate response.".data)) := by
  obtain ⟨s', hloop, hg, hc⟩ := loop_cont_n env q m m (initState q) (Nat.le_refl m)
    (by simpa [initState] using hcont)
  simp [initState] at hg hc
  have hrun : agentic_rag env q m = finalSynthesis env q s' := by
    show agentic_loop env q m (initState q) = _
    rw [hloop, Nat.sub_self]
    rfl
  rw [hrun]
  exact ⟨by simp [finalSynthesis, hg], by simp [finalSynthesis, hc], by simp [finalSynthesis, hg]⟩

/-- At most one critic evaluation happens per loop iteration, and when
it does happen the traced context is exactly the loop's single current
context after the iteration's tool results. -/
theorem loopIter_trace (env : Env) (q : Str) (s : LoopState) :
    (stepState (loopIter env q s)).ctrace = s.ctrace ∨
    ∃ c, (stepState (loopIter env q s)).ctrace = s.ctrace ++ [c] ∧
      (stepState (loopIter env q s)).context = some c := by
  unfold loopIter
  by_cases h1 : (env.gateway s.g).tool_calls = []
  · left; simp [h1, stepState]
  · simp only [if_neg h1]
    rcases hE : processToolCalls env.retrieveFn (env.gateway s.g).tool_calls
        s.messages s.context with e | ⟨msgs', ctx'⟩
    · left; simp [hE, stepState]
    · simp only [hE]
      match ctx' with
      | none => left; simp [stepState]
      | some ctx =>
        by_cases hctx : ctx = []
        · left; simp [hctx, stepState]
        · right
          refine ⟨ctx, ?_⟩
          simp only [if_neg hctx]
          rcases hC : critic_evaluate (env.critic s.ctrace.length) with e | verdict
          · simp [stepState]
          · match verdict with
            | Json.obj kvs =>
              by_cases hd : isStrEq ((jLookup kvs ("decision".data)).getD
                  (Json.str ("sufficient".data))) ("sufficient".data) = true
              · simp [hd, stepState]
              · simp only [Bool.not_eq_true] at hd
                by_cases hr : (isStrEq ((jLookup kvs ("decision".data)).getD
                    (Json.str ("sufficient".data))) ("needs_refinement".data)
                    && pyTruthyOpt (jLookup kvs ("refined_query".data))) = true
                · simp [hd, hr, stepState]
                · simp only [Bool.not_eq_true] at hr
                  simp [hd, hr, stepState]
            | Json.null => simp [stepState]
            | Json.bool b => simp [stepState]
            | Json.num n => simp [stepState]
            | Json.fnum l => simp [stepState]
            | Json.str t => simp [stepState]
            | Json.arr l => simp [stepState]

/-!  ## The claims  -/

/-- C1: if the critic's effective decision is `"sufficient"` first at
iteration `k ≤ max_iterations` (all earlier iterations being tool
rounds whose verdicts continue the loop), the run makes exactly `k`
tool-augmented gateway calls plus exactly one synthesis call and
returns the synthesis call's content; and if the critic never says
`"sufficient"`, the run performs exactly `max_iterations` rounds plus
one synthesis call and returns the synthesis content — with the
context still `None` when no round ever captured one
(`max_iterations = 0`). -/
theorem C1_iteration_and_synthesis_counts :
    (∀ (env : Env) (q : Str) (m k : Nat), 0 < k → k ≤ m →
      (∀ j, j < k - 1 → toolRoundOk env j ∧ criticContinueAt env j) →
      toolRoundOk env (k - 1) → criticSufficientAt env (k - 1) →
      (agentic_rag env q m).gcalls = k + 1 ∧
      (agentic_rag env q m).ctrace.length = k ∧
      (agentic_rag env q m).result =
        .ok (pyGetContent (env.gateway k).content ("Unable to generate response.".data))) ∧
    (∀ (env : Env) (q : Str) (m : Nat),
      (∀ j, j < m → toolRoundOk env j ∧ criticContinueAt env j) →
      (agentic_rag env q m).gcalls = m + 1 ∧
      (agentic_rag env q m).ctrace.length = m ∧
      (agentic_rag env q m).result =
        .ok (pyGetContent (env.gateway m).content ("Unable to generate response.".data)) ∧
      (m = 0 → (agentic_rag env q m).context = none)) := by
  constructor
  · intro env q m k hk hkm hcont hround hsuff
    obtain ⟨n, rfl⟩ : ∃ n, k = n + 1 := ⟨k - 1, by omega⟩
    simp only [Nat.add_sub_cancel] at hcont hround hsuff
    have h := run_breaks env q m n (by omega) hcont hround hsuff
    exact ⟨by omega, by omega, h.2.2⟩
  · intro env q m hcont
    have h := run_exhausts env q m hcont
    refine ⟨h.1, h.2.1, h.2.2, ?_⟩
    rintro rfl
    rfl

/-- C2: when the first tool-augmented gateway response carries no tool
invocation, the run terminates at once with that response's content
(`content` key present: returned verbatim, even when empty; `content`
key absent: the fixed fallback string), after exactly one gateway call
and zero critic calls. -/
theorem C2_direct_answer_short_circuit (env : Env) (q : Str) (m : Nat) (hm : 0 < m)
    (hnotool : (env.gateway 0).tool_calls = []) :
    agentic_rag env q m =
      { result := .ok (pyGetContent (env.gateway 0).content
          ("I couldn't find relevant information.".data)),
        gcalls := 1, ctrace := [], context := none } ∧
    (∀ s, (env.gateway 0).content = ContentVal.str s →
      (agentic_rag env q m).result = .ok (some s)) ∧
    ((env.gateway 0).content = ContentVal.missing →
      (agentic_rag env q m).result =
        .ok (some ("I couldn't find relevant information.".data))) := by
  obtain ⟨f, rfl⟩ : ∃ f, m = f + 1 := ⟨m - 1, by omega⟩
  have hrun : agentic_rag env q (f + 1) =
      { result := .ok (pyGetContent (env.gateway 0).content
          ("I couldn't find relevant information.".data)),
        gcalls := 1, ctrace := [], context := none } := by
    simp [agentic_rag, agentic_loop, loopIter, hnotool]
  refine ⟨hrun, ?_, ?_⟩
  · intro s hs
    rw [hrun]
    simp [pyGetContent, hs]
  · intro hs
    rw [hrun]
    simp [pyGetContent, hs]

/-- C3: a critic response whose cleaned text is not well-formed JSON
yields the synthetic fallback verdict without raising, and — since the
fallback's decision is `"sufficient"` — such a parse failure never
surfaces to the orchestrator's caller: the run still ends with the
synthesis call's content. -/
theorem C3_parse_error_fails_safe :
    (∀ response : Str, jsonLoads (cleanResponse response) = none →
      critic_evaluate response = .ok parseFallbackVerdict) ∧
    (∀ (env : Env) (q : Str) (m : Nat), 0 < m → toolRoundOk env 0 →
      jsonLoads (cleanResponse (env.critic 0)) = none →
      (agentic_rag env q m).result =
        .ok (pyGetContent (env.gateway 1).content ("Unable to generate response.".data))) := by
  have hfall : ∀ response : Str, jsonLoads (cleanResponse response) = none →
      critic_evaluate response = .ok parseFallbackVerdict := by
    intro r h
    unfold critic_evaluate criticParse
    rw [h]
  refine ⟨hfall, ?_⟩
  intro env q m hm hround hbad
  have hsuff : criticSufficientAt env 0 := by
    refine ⟨[ (("decision".data), Json.str ("sufficient".data)),
              (("reasoning".data), Json.str ("Parse error fallback".data)),
              (("refined_query".data), Json.null) ], ?_, ?_⟩
    · exact hfall _ hbad
    · decide
  exact (run_breaks env q m 0 hm (fun j hj => absurd hj (by omega)) hround hsuff).2.2

/-- C5: dispatching any unregistered tool name returns the diagnostic
string `"Unknown tool: <name>"` and never raises, so the loop is not
aborted by an unrecognized tool name. -/
theorem C5_unknown_tool_diagnostic (retrieveFn : Json → Json → List Passage)
    (tool_name : Str) (arguments : Json)
    (h : tool_name ≠ ("search_nist_knowledge".data)) :
    execute_tool retrieveFn tool_name arguments = .ok (("Unknown tool: ".data) ++ tool_name) := by
  simp [execute_tool, h]

/-- C6: the loop holds a single current context — after a round's tool
calls, the context is exactly the last executed call's result (earlier
results and the incoming context are overwritten, never merged) — and
each iteration performs at most one critic evaluation, traced with
that single latest context. -/
theorem C6_single_current_context :
    (∀ (retrieveFn : Json → Json → List Passage) (pre : List ToolCall) (tc : ToolCall)
      (msgs : List Message) (ctx : Option Str),
      (∀ tc' ∈ pre ++ [tc], ∃ kvs, jsonLoads tc'.arguments = some (Json.obj kvs)) →
      ∃ args res msgs', jsonLoads tc.arguments = some args ∧
        execute_tool retrieveFn tc.name args = .ok res ∧
        processToolCalls retrieveFn (pre ++ [tc]) msgs ctx = .ok (msgs', some res)) ∧
    (∀ (env : Env) (q : Str) (s : LoopState),
      (stepState (loopIter env q s)).ctrace = s.ctrace ∨
      ∃ c, (stepState (loopIter env q s)).ctrace = s.ctrace ++ [c] ∧
        (stepState (loopIter env q s)).context = some c) :=
  ⟨processToolCalls_last, loopIter_trace⟩

/-- C7: for the registered search tool, a missing `"query"` argument
defaults to the empty string and a missing `"top_k"` argument defaults
to `5`; the retrieval call is issued with exactly those values. -/
theorem C7_argument_defaults (retrieveFn : Json → Json → List Passage)
    (kvs : List (Str × Json)) :
    (jLookup kvs ("query".data) = none →
      execute_tool retrieveFn ("search_nist_knowledge".data) (Json.obj kvs) =
        .ok (format_context (retrieveFn (Json.str [])
          ((jLookup kvs ("top_k".data)).getD (Json.num 5))))) ∧
    (jLookup kvs ("top_k".data) = none →
      execute_tool retrieveFn ("search_nist_knowledge".data) (Json.obj kvs) =
        .ok (format_context (retrieveFn ((jLookup kvs ("query".data)).getD (Json.str []))
          (Json.num 5)))) := by
  constructor
  · intro h; simp [execute_tool, h]
  · intro h; simp [execute_tool, h]

/-- C8: a critic response whose cleaned text is well-formed JSON but
not a JSON object makes `critic_evaluate` raise an uncaught
`AttributeError` (at `result.get` in the logging line) instead of
returning a verdict: the fail-safe fallback covers only decode
errors. -/
theorem C8_nonobject_verdict_raises (response : Str) (v : Json)
    (hparse : jsonLoads (cleanResponse response) = some v)
    (hnotobj : jsonIsObj v = false) :
    critic_evaluate response = .error PyExc.attributeError := by
  unfold critic_evaluate criticParse
  rw [hparse]
  cases v <;> simp_all [jsonIsObj]

/-- C9: a gateway tool invocation whose serialized arguments are not
valid JSON aborts the whole run with an uncaught `JSONDecodeError`
before that tool is dispatched — no guard or defaulting exists; in
particular no critic call and no synthesis call happen after it. -/
theorem C9_malformed_tool_arguments_abort (env : Env) (q : Str) (m : Nat) (hm : 0 < m)
    (pre : List ToolCall) (tc : ToolCall) (post : List ToolCall)
    (hcalls : (env.gateway 0).tool_calls = pre ++ tc :: post)
    (hpre : ∀ tc' ∈ pre, ∃ kvs, jsonLoads tc'.arguments = some (Json.obj kvs))
    (hbad : jsonLoads tc.arguments = none) :
    agentic_rag env q m =
      { result := .error PyExc.jsonDecodeError, gcalls := 1, ctrace := [], context := none } := by
  obtain ⟨f, rfl⟩ : ∃ f, m = f + 1 := ⟨m - 1, by omega⟩
  have herr := processToolCalls_err env.retrieveFn pre tc post [Message.user q] none hpre hbad
  simp [agentic_rag, agentic_loop, loopIter, hcalls, herr]

/-!  ## C10: missing `"decision"` key in the critic verdict  -/

/-- A well-formed tool call used by concrete environments. -/
def tcZta : ToolCall :=
  { id := ("call1".data), name := ("search_nist_knowledge".data),
    arguments := ("\x7b\"query\": \"zta\"\x7d".data) }

/-- A concrete retrieved passage. -/
def passageZta : Passage :=
  { citation := ("[sp800-207.pdf, Page 3]".data), text := ("zero trust text".data) }

/-- Environment whose first gateway response requests one well-formed
tool call and whose critic responds with the JSON object
`\x7b"reasoning": null\x7d` — an object with no `"decision"` key. -/
def envNullReasoning : Env :=
  { gateway := fun i =>
      if i = 0 then { content := ContentVal.null, tool_calls := [tcZta] }
      else { content := ContentVal.str ("synthesized".data), tool_calls := [] },
    critic := fun _ => ("\x7b\"reasoning\": null\x7d".data),
    retrieveFn := fun _ _ => [passageZta] }

/-- C10 counterexample: the critic verdict `\x7b"reasoning": null\x7d`
parses as a JSON object lacking a `"decision"` key, yet the
orchestrator does not break to synthesis — `critic_evaluate`'s logging
line slices `None` and raises an uncaught `TypeError`, ending the run
after a single gateway call with an exception instead of a synthesis
answer. -/
theorem C10_counterexample :
    jsonLoads (cleanResponse (envNullReasoning.critic 0)) =
      some (Json.obj [(("reasoning".data), Json.null)]) ∧
    jLookup [(("reasoning".data), Json.null)] ("decision".data) = none ∧
    (agentic_rag envNullReasoning ("q".data) 3).result = .error PyExc.typeError ∧
    (agentic_rag envNullReasoning ("q".data) 3).gcalls = 1 ∧
    (agentic_rag envNullReasoning ("q".data) 3).ctrace.length = 1 :=
  ⟨rfl, rfl, rfl, rfl, rfl⟩

/-- C10 (amended): for every critic verdict that `critic_evaluate`
returns as a JSON object lacking a `"decision"` key — which requires
its `"reasoning"` value, when present, to be sliceable so the logging
line does not raise — the orchestrator defaults the decision to
`"sufficient"`: it breaks out of the loop immediately and proceeds to
the single final synthesis call, exactly as if the critic had approved
the context. -/
theorem C10_missing_decision_defaults_sufficient (env : Env) (q : Str) (m : Nat) (hm : 0 < m)
    (hround : toolRoundOk env 0) (kvs : List (Str × Json))
    (hok : critic_evaluate (env.critic 0) = .ok (Json.obj kvs))
    (hnodec : jLookup kvs ("decision".data) = none) :
    (agentic_rag env q m).gcalls = 2 ∧
    (agentic_rag env q m).ctrace.length = 1 ∧
    (agentic_rag env q m).result =
      .ok (pyGetContent (env.gateway 1).content ("Unable to generate response.".data)) := by
  have hsuff : criticSufficientAt env 0 := ⟨kvs, hok, by simp [hnodec, isStrEq]⟩
  have h := run_breaks env q m 0 hm (fun j hj => absurd hj (by omega)) hround hsuff
  simpa using h

/-!  ## C4: fence stripping in the critic's response cleaning  -/

/-- `str.strip()` is the identity on a string whose first and last
characters are not whitespace. -/
theorem pyStrip_eq_self (l : Str) (c d : Char) (h1 : l.head? = some c) (hc : isPySpace c = false)
    (h2 : l.getLast? = some d) (hd : isPySpace d = false) : pyStrip l = l := by
  have e1 : l.dropWhile isPySpace = l := by
    cases l with
    | nil => rfl
    | cons a as =>
      have ha : a = c := by simpa using h1
      subst ha
      simp [List.dropWhile_cons, hc]
  have e2 : l.reverse.dropWhile isPySpace = l.reverse := by
    cases hrev : l.reverse with
    | nil => rfl
    | cons a as =>
      have ha : a = d := by
        have hh := List.head?_reverse l
        rw [hrev, h2] at hh
        simpa using hh
      subst ha
      simp [List.dropWhile_cons, hd]
  unfold pyStrip
  rw [e1, e2, List.reverse_reverse]

/-- Stripping the single sandwiching newlines around a brace-delimited
string recovers it. -/
theorem pyStrip_wrap (t r : Str) (hr : ('\x7b' :: t).reverse = '\x7d' :: r) :
    pyStrip ('\n' :: (('\x7b' :: t) ++ ['\n'])) = '\x7b' :: t := by
  have s1 : isPySpace '\n' = true := rfl
  have s2 : isPySpace '\x7b' = false := rfl
  have s3 : isPySpace '\x7d' = false := rfl
  unfold pyStrip
  have e1 : ('\n' :: (('\x7b' :: t) ++ ['\n'])).dropWhile isPySpace = ('\x7b' :: t) ++ ['\n'] := by
    simp [List.dropWhile_cons, s1, s2]
  rw [e1]
  have e2 : ((('\x7b' :: t) ++ ['\n'])).reverse = '\n' :: ('\x7b' :: t).reverse := by
    simp
  rw [e2]
  have e3 : ('\n' :: ('\x7b' :: t).reverse).dropWhile isPySpace = ('\x7b' :: t).reverse := by
    rw [hr]
    simp [List.dropWhile_cons, s1, s3]
  rw [e3, List.reverse_reverse]

/-- Any string followed by the literal `"\n```"` ends with a
triple-backtick fence. -/
theorem endsWith_backticks (X : Str) :
    (("```".data).isSuffixOf (X ++ ("\n```".data))) = true := by
  show (("```".data).reverse.isPrefixOf (X ++ ("\n```".data)).reverse) = true
  rw [List.reverse_append]
  rfl

/-- Removing the last three characters of a string ending in `"\n```"`
leaves the string with a single trailing newline. -/
theorem take_sub_three (X : Str) :
    (X ++ ("\n```".data)).take ((X ++ ("\n```".data)).length - 3) = X ++ ['\n'] := by
  have hB : ("\n```".data).length = 4 := rfl
  have h : (X ++ ("\n```".data)).length - 3 = X.length + 1 := by
    simp [List.length_append, hB]
  rw [h]
  have h2 : (X ++ ("\n```".data)).take (X.length + 1) = X ++ ("\n```".data).take 1 :=
    List.take_append 1
  rw [h2]
  rfl

/-- On a brace-delimited JSON-object text, the cleaning step is the
identity. -/
theorem cleanResponse_obj_id (j t r : Str) (hj : j = '\x7b' :: t)
    (hr : j.reverse = '\x7d' :: r) : cleanResponse j = j := by
  subst hj
  have h1 : pyStrip ('\x7b' :: t) = '\x7b' :: t := by
    refine pyStrip_eq_self _ '\x7b' '\x7d' rfl rfl ?_ rfl
    rw [← List.head?_reverse, hr]
    rfl
  have hp1 : (("```json".data).isPrefixOf ('\x7b' :: t)) = false := rfl
  have hp2 : (("```".data).isPrefixOf ('\x7b' :: t)) = false := rfl
  have hs1 : (("```".data).isSuffixOf ('\x7b' :: t)) = false := by
    show (("```".data).reverse.isPrefixOf ('\x7b' :: t).reverse) = false
    rw [hr]
    rfl
  simp [cleanResponse, h1, hp1, hp2, hs1]

/-- Cleaning strips a leading ```` ```json ```` fence and the trailing
fence around a brace-delimited JSON-object text. -/
theorem cleanResponse_fence_json (j t r : Str) (hj : j = '\x7b' :: t)
    (hr : j.reverse = '\x7d' :: r) :
    cleanResponse (("```json\n".data) ++ j ++ ("\n```".data)) = j := by
  have h1 : pyStrip (("```json\n".data) ++ j ++ ("\n```".data)) =
      ("```json\n".data) ++ j ++ ("\n```".data) := by
    refine pyStrip_eq_self _ '`' '`' rfl rfl ?_ rfl
    rw [List.getLast?_append_of_ne_nil _ (by decide : ("\n```".data) ≠ [])]
    rfl
  have hp1 : (("```json".data).isPrefixOf (("```json\n".data) ++ j ++ ("\n```".data))) = true := rfl
  have hdrop : ((("```json\n".data) ++ j ++ ("\n```".data))).drop 7 =
      '\n' :: (j ++ ("\n```".data)) := rfl
  have hsuf : (("```".data).isSuffixOf ('\n' :: (j ++ ("\n```".data)))) = true :=
    endsWith_backticks ('\n' :: j)
  have htake : (('\n' :: (j ++ ("\n```".data)))).take
      ((('\n' :: (j ++ ("\n```".data)))).length - 3) = '\n' :: (j ++ ['\n']) :=
    take_sub_three ('\n' :: j)
  simp only [cleanResponse]
  rw [h1, if_pos hp1, hdrop, if_pos hsuf, htake]
  subst hj
  exact pyStrip_wrap t r hr

/-- Cleaning strips a leading plain ```` ``` ```` fence and the
trailing fence around a brace-delimited JSON-object text. -/
theorem cleanResponse_fence_plain (j t r : Str) (hj : j = '\x7b' :: t)
    (hr : j.reverse = '\x7d' :: r) :
    cleanResponse (("```\n".data) ++ j ++ ("\n```".data)) = j := by
  have h1 : pyStrip (("```\n".data) ++ j ++ ("\n```".data)) =
      ("```\n".data) ++ j ++ ("\n```".data) := by
    refine pyStrip_eq_self _ '`' '`' rfl rfl ?_ rfl
    rw [List.getLast?_append_of_ne_nil _ (by decide : ("\n```".data) ≠ [])]
    rfl
  have hp0 : (("```json".data).isPrefixOf (("```\n".data) ++ j ++ ("\n```".data))) = false := rfl
  have hp1 : (("```".data).isPrefixOf (("```\n".data) ++ j ++ ("\n```".data))) = true := rfl
  have hdrop : ((("```\n".data) ++ j ++ ("\n```".data))).drop 3 =
      '\n' :: (j ++ ("\n```".data)) := rfl
  have hsuf : (("```".data).isSuffixOf ('\n' :: (j ++ ("\n```".data)))) = true :=
    endsWith_backticks ('\n' :: j)
  have htake : (('\n' :: (j ++ ("\n```".data)))).take
      ((('\n' :: (j ++ ("\n```".data)))).length - 3) = '\n' :: (j ++ ['\n']) :=
    take_sub_three ('\n' :: j)
  simp only [cleanResponse]
  rw [h1]
  simp only [hp0, Bool.false_eq_true, if_false]
  rw [if_pos hp1, hdrop, if_pos hsuf, htake]
  subst hj
  exact pyStrip_wrap t r hr

/-- C4: for every brace-delimited JSON object text `j` (first
character `\x7b`, last character `\x7d`), the critic's cleaning step
maps the fenced responses ```` ```json\n j \n``` ```` and
```` ```\n j \n``` ```` and the bare `j` to the same cleaned text, so
`critic_evaluate` yields the same verdict on all three. -/
theorem C4_fence_stripping (j t r : Str) (hj : j = '\x7b' :: t)
    (hr : j.reverse = '\x7d' :: r) :
    cleanResponse (("```json\n".data) ++ j ++ ("\n```".data)) = cleanResponse j ∧
    cleanResponse (("```\n".data) ++ j ++ ("\n```".data)) = cleanResponse j ∧
    critic_evaluate (("```json\n".data) ++ j ++ ("\n```".data)) = critic_evaluate j ∧
    critic_evaluate (("```\n".data) ++ j ++ ("\n```".data)) = critic_evaluate j := by
  have e0 := cleanResponse_obj_id j t r hj hr
  have e1 := cleanResponse_fence_json j t r hj hr
  have e2 := cleanResponse_fence_plain j t r hj hr
  refine ⟨by rw [e0, e1], by rw [e0, e2], ?_, ?_⟩
  · unfold critic_evaluate
    rw [e0, e1]
  · unfold critic_evaluate
    rw [e0, e2]

/-!  ## Concrete environments and witnesses  -/

/-- A tool round with a single well-formed tool call. -/
theorem toolRoundOk_single (env : Env) (i : Nat) (tc : ToolCall) (kvs : List (Str × Json))
    (h : (env.gateway i).tool_calls = [tc]) (hp : jsonLoads tc.arguments = some (Json.obj kvs)) :
    toolRoundOk env i := by
  refine ⟨by simp [h], ?_⟩
  intro tc' htc'
  rw [h] at htc'
  simp at htc'
  subst htc'
  exact ⟨kvs, hp⟩

/-- A second well-formed tool call, with explicit `top_k`. -/
def tcPki : ToolCall :=
  { id := ("call2".data), name := ("search_nist_knowledge".data),
    arguments := ("\x7b\"query\": \"pki\", \"top_k\": 2\x7d".data) }

/-- A tool call whose serialized arguments are not valid JSON. -/
def tcBad : ToolCall :=
  { id := ("call3".data), name := ("search_nist_knowledge".data),
    arguments := ("not json".data) }

/-- Environment: one tool round, then the critic approves. -/
def envSufficient : Env :=
  { gateway := fun i =>
      if i = 0 then { content := ContentVal.null, tool_calls := [tcZta] }
      else { content := ContentVal.str ("final answer".data), tool_calls := [] },
    critic := fun _ => ("\x7b\"decision\": \"sufficient\"\x7d".data),
    retrieveFn := fun _ _ => [passageZta] }

/-- Environment: every round is a tool round and the critic always
answers `"insufficient"`. -/
def envInsufficient : Env :=
  { gateway := fun _ => { content := ContentVal.str ("syn".data), tool_calls := [tcZta] },
    critic := fun _ => ("\x7b\"decision\": \"insufficient\"\x7d".data),
    retrieveFn := fun _ _ => [passageZta] }

/-- Environment: the first gateway response has no tool call. -/
def envDirect : Env :=
  { gateway := fun _ => { content := ContentVal.str ("direct".data), tool_calls := [] },
    critic := fun _ => [], retrieveFn := fun _ _ => [] }

/-- Environment: tool round, then a critic response that is not JSON. -/
def envBadCritic : Env :=
  { gateway := fun i =>
      if i = 0 then { content := ContentVal.null, tool_calls := [tcZta] }
      else { content := ContentVal.str ("synth".data), tool_calls := [] },
    critic := fun _ => ("not json".data),
    retrieveFn := fun _ _ => [passageZta] }

/-- Environment: the gateway's tool call has malformed arguments. -/
def envBadArgs : Env :=
  { gateway := fun _ => { content := ContentVal.null, tool_calls := [tcBad] },
    critic := fun _ => [], retrieveFn := fun _ _ => [] }

/-- Environment: tool round, then a critic verdict object with no
`"decision"` key (and no `"reasoning"` key). -/
def envNoDecision : Env :=
  { gateway := fun i =>
      if i = 0 then { content := ContentVal.null, tool_calls := [tcZta] }
      else { content := ContentVal.str ("synth2".data), tool_calls := [] },
    critic := fun _ => ("\x7b\"foo\": 1\x7d".data),
    retrieveFn := fun _ _ => [passageZta] }

/-- The parsed arguments of `tcZta`. -/
def kvsZta : List (Str × Json) := [(("query".data), Json.str ("zta".data))]

/-- Witness for C1: with the critic sufficient at the first iteration
the run makes 1 + 1 gateway calls and 1 critic call; with the critic
never sufficient over 2 iterations it makes 2 + 1 gateway calls and 2
critic calls, both returning the synthesis content. -/
theorem C1_witness :
    ((agentic_rag envSufficient ("q".data) 3).gcalls = 2 ∧
      (agentic_rag envSufficient ("q".data) 3).ctrace.length = 1 ∧
      (agentic_rag envSufficient ("q".data) 3).result = .ok (some ("final answer".data))) ∧
    ((agentic_rag envInsufficient ("q".data) 2).gcalls = 3 ∧
      (agentic_rag envInsufficient ("q".data) 2).ctrace.length = 2 ∧
      (agentic_rag envInsufficient ("q".data) 2).result = .ok (some ("syn".data))) := by
  constructor
  · have h := C1_iteration_and_synthesis_counts.1 envSufficient ("q".data) 3 1
      (by decide) (by decide) (fun j hj => absurd hj (by omega))
      (toolRoundOk_single envSufficient 0 tcZta kvsZta rfl rfl)
      ⟨[(("decision".data), Json.str ("sufficient".data))], rfl, rfl⟩
    exact ⟨h.1, h.2.1, h.2.2⟩
  · have h := C1_iteration_and_synthesis_counts.2 envInsufficient ("q".data) 2
      (fun j hj => ⟨toolRoundOk_single envInsufficient j tcZta kvsZta rfl rfl,
        ⟨[(("decision".data), Json.str ("insufficient".data))], rfl, rfl⟩⟩)
    exact ⟨h.1, h.2.1, h.2.2.1⟩

/-- Witness for C2: a first response without tool calls is returned
verbatim after one gateway call and zero critic calls. -/
theorem C2_witness :
    agentic_rag envDirect ("q".data) 3 =
      { result := .ok (some ("direct".data)), gcalls := 1, ctrace := [], context := none } ∧
    (agentic_rag envDirect ("q".data) 3).result = .ok (some ("direct".data)) := by
  have h := C2_direct_answer_short_circuit envDirect ("q".data) 3 (by decide) rfl
  exact ⟨h.1, h.2.1 ("direct".data) rfl⟩

/-- Witness for C3: the non-JSON critic response `"not json"` yields
the fallback verdict and the run still returns synthesis content. -/
theorem C3_witness :
    critic_evaluate ("not json".data) = .ok parseFallbackVerdict ∧
    (agentic_rag envBadCritic ("q".data) 3).result = .ok (some ("synth".data)) := by
  refine ⟨C3_parse_error_fails_safe.1 ("not json".data) rfl, ?_⟩
  exact C3_parse_error_fails_safe.2 envBadCritic ("q".data) 3 (by decide)
    (toolRoundOk_single envBadCritic 0 tcZta kvsZta rfl rfl) rfl

/-- Witness for C4: the three wrappings of a concrete verdict object
evaluate to the same verdict. -/
theorem C4_witness :
    critic_evaluate (("```json\n".data) ++ ("\x7b\"decision\": \"sufficient\"\x7d".data)
        ++ ("\n```".data)) =
      critic_evaluate ("\x7b\"decision\": \"sufficient\"\x7d".data) ∧
    critic_evaluate (("```\n".data) ++ ("\x7b\"decision\": \"sufficient\"\x7d".data)
        ++ ("\n```".data)) =
      critic_evaluate ("\x7b\"decision\": \"sufficient\"\x7d".data) := by
  have h := C4_fence_stripping ("\x7b\"decision\": \"sufficient\"\x7d".data)
    ("\"decision\": \"sufficient\"\x7d".data)
    (("\x7b\"decision\": \"sufficient\"".data).reverse) rfl rfl
  exact ⟨h.2.2.1, h.2.2.2⟩

/-- Witness for C5: the unregistered name `"does_not_exist"` yields
the literal diagnostic string. -/
theorem C5_witness :
    ("does_not_exist".data) ≠ ("search_nist_knowledge".data) ∧
    execute_tool (fun _ _ => []) ("does_not_exist".data) (Json.obj []) =
      .ok ("Unknown tool: does_not_exist".data) :=
  ⟨by decide, C5_unknown_tool_diagnostic (fun _ _ => []) ("does_not_exist".data)
    (Json.obj []) (by decide)⟩

/-- Witness for C6: with two tool calls in one round, the context
after the loop is the last call's result; and one concrete iteration
grows the critic trace by at most one entry, equal to its context. -/
theorem C6_witness :
    (∃ args res msgs', jsonLoads tcZta.arguments = some args ∧
      execute_tool (fun _ _ => [passageZta]) tcZta.name args = .ok res ∧
      processToolCalls (fun _ _ => [passageZta]) ([tcPki] ++ [tcZta]) [] none =
        .ok (msgs', some res)) ∧
    ((stepState (loopIter envSufficient ("q".data) (initState ("q".data)))).ctrace =
        (initState ("q".data)).ctrace ∨
      ∃ c, (stepState (loopIter envSufficient ("q".data) (initState ("q".data)))).ctrace =
          (initState ("q".data)).ctrace ++ [c] ∧
        (stepState (loopIter envSufficient ("q".data) (initState ("q".data)))).context =
          some c) := by
  constructor
  · refine C6_single_current_context.1 (fun _ _ => [passageZta]) [tcPki] tcZta [] none ?_
    intro tc' htc'
    simp at htc'
    rcases htc' with h | h
    · subst h
      exact ⟨[(("query".data), Json.str ("pki".data)), (("top_k".data), Json.num 2)], rfl⟩
    · subst h
      exact ⟨kvsZta, rfl⟩
  · exact C6_single_current_context.2 envSufficient ("q".data) (initState ("q".data))

/-- Witness for C7: with an empty argument dictionary, both defaults
apply and the retrieval of the constant-empty retriever renders the
sentinel context. -/
theorem C7_witness :
    jLookup ([] : List (Str × Json)) ("query".data) = none ∧
    jLookup ([] : List (Str × Json)) ("top_k".data) = none ∧
    execute_tool (fun _ _ => []) ("search_nist_knowledge".data) (Json.obj []) =
      .ok ("No relevant information found.".data) := by
  refine ⟨rfl, rfl, ?_⟩
  exact (C7_argument_defaults (fun _ _ => []) []).1 rfl

/-- Witness for C8: the response `"42"` is well-formed JSON but not an
object, and the evaluator raises `AttributeError` on it. -/
theorem C8_witness :
    jsonLoads (cleanResponse ("42".data)) = some (Json.num 42) ∧
    jsonIsObj (Json.num 42) = false ∧
    critic_evaluate ("42".data) = .error PyExc.attributeError :=
  ⟨rfl, rfl, C8_nonobject_verdict_raises ("42".data) (Json.num 42) rfl rfl⟩

/-- Witness for C9: the run aborts with `JSONDecodeError` on the tool
call whose arguments are `"not json"`, after one gateway call and zero
critic calls. -/
theorem C9_witness :
    jsonLoads tcBad.arguments = none ∧
    agentic_rag envBadArgs ("q".data) 3 =
      { result := .error PyExc.jsonDecodeError, gcalls := 1, ctrace := [], context := none } := by
  refine ⟨rfl, ?_⟩
  exact C9_malformed_tool_arguments_abort envBadArgs ("q".data) 3 (by decide) [] tcBad [] rfl
    (fun tc' htc' => absurd htc' (by simp)) rfl

/-- Witness for C10 (amended): the verdict `\x7b"foo": 1\x7d` lacks
`"decision"` and the run breaks to synthesis immediately. -/
theorem C10_witness :
    critic_evaluate (envNoDecision.critic 0) = .ok (Json.obj [(("foo".data), Json.num 1)]) ∧
    jLookup [(("foo".data), Json.num 1)] ("decision".data) = none ∧
    (agentic_rag envNoDecision ("q".data) 3).gcalls = 2 ∧
    (agentic_rag envNoDecision ("q".data) 3).ctrace.length = 1 ∧
    (agentic_rag envNoDecision ("q".data) 3).result = .ok (some ("synth2".data)) := by
  have h := C10_missing_decision_defaults_sufficient envNoDecision ("q".data) 3 (by decide)
    (toolRoundOk_single envNoDecision 0 tcZta kvsZta rfl rfl)
    [(("foo".data), Json.num 1)] rfl rfl
  exact ⟨rfl, rfl, h.1, h.2.1, h.2.2⟩

end ARag
